import Mathlib

/-!
Verification of the duplicate-video-finder repository.

The repository ships several iterations of a Home Assistant frontend panel
(`custom_components/duplicate_video_finder/frontend/duplicate-video-finder-panel.js`,
version 1.1.6 being the first and authoritative document in that file, plus
older iterations under `unnamed/`).  The scan engine itself (directory
enumeration, hashing, the DuplicateIndex and the ScanSession state machine)
is not part of the repository; only the panel that consumes its status is.
Definitions below are therefore split into
  * a faithful shallow embedding of the v1.1.6 panel code, and
  * engine components modelled from the specification where the engine code
    is missing (each such definition is marked `Modelled from the spec:`).
-/

/-- A file entry of a duplicate group as rendered by the panel
(`_renderResults` uses `file.path`, `file.size`, `file.created`). -/
structure DupFile where
  path : String
  size : Nat
  created : Nat
deriving DecidableEq

/-- The duplicates mapping published to the panel: digest hex string to the
files sharing that digest, in order. -/
abbrev DupMap := List (String × List DupFile)

/-- JavaScript `a || b` on an optional number: a missing or zero (falsy)
value falls through to the default. -/
def jsOrQ (o : Option ℚ) (d : ℚ) : ℚ :=
  match o with
  | some q => if q = 0 then d else q
  | none => d

/-- JavaScript `a || b` on an optional string: a missing or empty (falsy)
value falls through to the default. -/
def jsOrS (o : Option String) (d : String) : String :=
  match o with
  | some s => if s = "" then d else s
  | none => d

/-- JavaScript truthiness of an optional string (`if (attributes.current_file)`):
present and non-empty. -/
def truthyS (o : Option String) : Bool :=
  match o with
  | some s => s != ""
  | none => false

/-- JavaScript `a || b` on optional objects: any present object (even an
empty one) is truthy. -/
def jsOrObj {α : Type} (o : Option α) (d : Option α) : Option α :=
  match o with
  | some x => some x
  | none => d

/-- `parseInt(input?.value) || d` as used by `_startScan` (lines 774-775):
a missing input or unparsable value gives NaN (modelled as `none`), and a
parsed 0 is falsy, so both fall back to the default. -/
def jsIntOr (o : Option Int) (d : Int) : Int :=
  match o with
  | some n => if n = 0 then d else n
  | none => d

/-- JavaScript `String.prototype.split(',')` on the character list: an
empty string yields one empty piece, a trailing comma an empty last
piece. -/
def splitCommaAux : List Char → List Char → List String
  | [], acc => [String.mk acc.reverse]
  | c :: cs, acc =>
    if c = ',' then String.mk acc.reverse :: splitCommaAux cs []
    else splitCommaAux cs (c :: acc)

/-- `value.split(',')`. -/
def jsSplitComma (s : String) : List String :=
  splitCommaAux s.data []

/-- JavaScript `String.prototype.trim()`: strip whitespace from both
ends. -/
def jsTrim (s : String) : String :=
  String.mk (((s.data.dropWhile Char.isWhitespace).reverse.dropWhile Char.isWhitespace).reverse)

/-- `value.split(',').map(ext => ext.trim()).filter(Boolean)`
(line 773 of the panel). -/
def jsSplitTrimFilter (s : String) : List String :=
  ((jsSplitComma s).map jsTrim).filter (fun t => t != "")

/-- The extension list computed by `_startScan` (line 773): the fallback
`['mp4', 'mkv', 'avi', 'mov']` applies only when the input element is
missing (optional chaining yields undefined); an existing input always
yields the (possibly empty) filtered split, because a JavaScript array is
truthy even when empty. -/
def parseExtensions (o : Option String) : List String :=
  match o with
  | some s => jsSplitTrimFilter s
  | none => ["mp4", "mkv", "avi", "mov"]

/-- Attributes of a scan-state entity as read by the panel.  The panel
reads typed fields by several naming variants; `rawNonempty` and `rawAsMap`
model the last-resort use of the whole attributes object as a duplicates
map (`_updateScanState` lines 147-150): `rawNonempty` stands for
`Object.keys(attrs).length > 0` and `rawAsMap` for the object itself. -/
structure Attributes where
  progress : Option ℚ := none
  scan_progress : Option ℚ := none
  processed_percentage : Option ℚ := none
  current_file : Option String := none
  file : Option String := none
  processing_file : Option String := none
  found_duplicates : Option DupMap := none
  duplicates : Option DupMap := none
  rawNonempty : Bool := false
  rawAsMap : DupMap := []
deriving DecidableEq

/-- One entity in `hass.states`: a state string plus attributes. -/
structure EntityState where
  state : String
  attrs : Attributes
deriving DecidableEq

/-- The slice of the `hass` object the panel consults: the three candidate
scan-state entity ids (lines 64-67) and the two candidate duplicates
entity ids (lines 137-139). -/
structure Hass where
  scanStateEntity : Option EntityState := none
  sensorScanStateEntity : Option EntityState := none
  sensorEntity : Option EntityState := none
  sensorDuplicatesEntity : Option EntityState := none
  duplicatesEntity : Option EntityState := none
deriving DecidableEq

/-- `hass.states['duplicate_video_finder.scan_state'] ||
hass.states['sensor.duplicate_video_finder_scan_state'] ||
hass.states['sensor.duplicate_video_finder']` (lines 64-67). -/
def scanEntityOf (h : Hass) : Option EntityState :=
  jsOrObj h.scanStateEntity (jsOrObj h.sensorScanStateEntity h.sensorEntity)

/-- `hass.states['sensor.duplicate_video_finder_duplicates'] ||
hass.states['duplicate_video_finder.duplicates']` (lines 137-139). -/
def dupsEntityOf (h : Hass) : Option EntityState :=
  jsOrObj h.sensorDuplicatesEntity h.duplicatesEntity

/-- The mutable state of the v1.1.6 panel element (constructor
lines 15-26).  Timer handles and debug counters that never influence the
scan state are omitted; `startTime` is in milliseconds as `Date.now()`. -/
structure PanelState where
  isScanning : Bool := false
  isPaused : Bool := false
  progress : ℚ := 0
  currentFile : String := ""
  duplicates : Option DupMap := none
  scanStarted : Bool := false
  startTime : Option Nat := none
  pollCount : Nat := 0
deriving DecidableEq

/-- The panel state constructed by the v1.1.6 constructor. -/
def initialPanel : PanelState := {}

/-- `_getProgress` (lines 206-209): JavaScript truthiness chain over three
attribute naming variants, then 0. -/
def getProgress (a : Attributes) : ℚ :=
  jsOrQ a.progress (jsOrQ a.scan_progress (jsOrQ a.processed_percentage 0))

/-- `_getCurrentFile` (lines 211-214). -/
def getCurrentFile (a : Attributes) : String :=
  jsOrS a.current_file (jsOrS a.file (jsOrS a.processing_file ""))

/-- `_getDuplicates` (lines 216-218): objects are truthy whenever present,
and the final default is the empty object. -/
def getDuplicates (a : Attributes) : DupMap :=
  match a.found_duplicates with
  | some m => m
  | none =>
    match a.duplicates with
    | some m => m
    | none => []

/-- `Math.min(100, Math.max(0, this._progress))` from `_renderScanningUI`
(line 375): the progress presented to the consumer. -/
def renderProgressPercent (p : ℚ) : ℚ :=
  min 100 (max 0 p)

/-- The warning text assembled in `_updateScanState` (line 122). -/
def waitingMsg (elapsed : ℚ) : String :=
  "Waiting for backend response (" ++ toString ⌊elapsed⌋ ++ "s)..."

/-- The failure text set in `_updateScanState` (line 128). -/
def failedMsg : String := "Scan failed to start properly. Please try again."

/-- Lines 84-90 of `_updateScanState`: take `_progress` from the first
defined one of `progress`, `scan_progress`, `processed_percentage`
(`!== undefined` checks; a present value is used even when 0 because
`parseFloat(x || 0)` maps 0 to 0). -/
def updateProgressField (s : PanelState) (a : Attributes) : PanelState :=
  match a.progress with
  | some q => { s with progress := q }
  | none =>
    match a.scan_progress with
    | some q => { s with progress := q }
    | none =>
      match a.processed_percentage with
      | some q => { s with progress := q }
      | none => s

/-- Lines 93-99 of `_updateScanState`: take `_currentFile` from the first
truthy one of `current_file`, `file`, `processing_file`. -/
def updateCurrentFileField (s : PanelState) (a : Attributes) : PanelState :=
  if truthyS a.current_file then { s with currentFile := jsOrS a.current_file "" }
  else if truthyS a.file then { s with currentFile := jsOrS a.file "" }
  else if truthyS a.processing_file then { s with currentFile := jsOrS a.processing_file "" }
  else s

/-- Lines 102-106 of `_updateScanState`: replace `_duplicates` when the
update supplies `found_duplicates`, else when it supplies `duplicates`;
otherwise keep the current value. -/
def updateDuplicatesField (s : PanelState) (a : Attributes) : PanelState :=
  match a.found_duplicates with
  | some m => { s with duplicates := some m }
  | none =>
    match a.duplicates with
    | some m => { s with duplicates := some m }
    | none => s

/-- Lines 113-132 of `_updateScanState`: the watchdog branch taken when no
scan-state entity exists yet; after 30 seconds it overwrites
`_currentFile` with a waiting message and after 120 seconds it gives up
and clears the scanning flags. -/
def watchdogUpdate (s : PanelState) (now : Nat) : PanelState :=
  if s.scanStarted && s.startTime.isSome then
    let t := s.startTime.getD 0
    let elapsed : ℚ := ((now : ℚ) - (t : ℚ)) / 1000
    if 30 < elapsed && 15 < s.pollCount then
      if 120 < elapsed then
        { s with isScanning := false, scanStarted := false, currentFile := failedMsg }
      else { s with currentFile := waitingMsg elapsed }
    else s
  else s

/-- Lines 135-152 of `_updateScanState`: while `_duplicates` is still
null, consult the dedicated duplicates entities, preferring the
`duplicates` attribute, then `found_duplicates`, then the raw attributes
object when non-empty. -/
def dupsFallbackUpdate (s : PanelState) (h : Hass) : PanelState :=
  if s.duplicates.isNone then
    match dupsEntityOf h with
    | some ent =>
      match ent.attrs.duplicates with
      | some m => { s with duplicates := some m }
      | none =>
        match ent.attrs.found_duplicates with
        | some m => { s with duplicates := some m }
        | none =>
          if ent.attrs.rawNonempty then { s with duplicates := some ent.attrs.rawAsMap }
          else s
    | none => s
  else s

/-- `_updateScanState` (lines 57-153) of the v1.1.6 panel: read the scan
state entity (trying three ids), mirror its state string and attributes
into the panel state, fall back to the watchdog when the entity is
missing, and finally try the dedicated duplicates entities while the
duplicates are still null.  `now` stands for `Date.now()` in
milliseconds.  Polling-timer bookkeeping (`_setupPolling`,
`_clearPolling`) touches no scan state and is omitted. -/
def updateScanState (s : PanelState) (h : Hass) (now : Nat) : PanelState :=
  let s1 :=
    match scanEntityOf h with
    | some ent =>
      updateDuplicatesField
        (updateCurrentFileField
          (updateProgressField
            { s with
              isScanning := (ent.state == "scanning") || (ent.state == "on"),
              isPaused := ent.state == "paused" }
            ent.attrs)
          ent.attrs)
        ent.attrs
    | none => watchdogUpdate s now
  dupsFallbackUpdate s1 h

/-- The payload of the `duplicate_video_finder.find_duplicates` service
call issued by `_startScan` (lines 798-802). -/
structure ServiceCall where
  video_extensions : List String
  max_cpu_percent : Int
  batch_size : Int
deriving DecidableEq

/-- The three form inputs read by `_startScan` (lines 768-770).  The
numeric fields hold the `parseInt` result, `none` standing for a missing
input or NaN. -/
structure ScanForm where
  extensions : Option String := none
  maxCpu : Option Int := none
  batchSize : Option Int := none
deriving DecidableEq

/-- The configuration `_startScan` sends to the backend (lines 772-775 and
798-802). -/
def serviceCallOf (form : ScanForm) : ServiceCall :=
  { video_extensions := parseExtensions form.extensions
    max_cpu_percent := jsIntOr form.maxCpu 70
    batch_size := jsIntOr form.batchSize 100 }

/-- `_startScan` (lines 763-838): reject only while `_isScanning` is set;
otherwise transition the panel to scanning immediately (lines 777-785) and
issue the service call.  Returns the new panel state and the call sent to
the backend (`none` when rejected). -/
def startScan (s : PanelState) (form : ScanForm) (now : Nat) :
    PanelState × Option ServiceCall :=
  if s.isScanning then (s, none)
  else
    ({ s with isScanning := true, isPaused := false, progress := 0,
              currentFile := "Starting scan...", scanStarted := true,
              startTime := some now, pollCount := 0 },
     some (serviceCallOf form))

/-- The asynchronous `.catch` handler of `_startScan` (lines 812-815). -/
def startScanFailed (s : PanelState) : PanelState :=
  { s with isScanning := false, scanStarted := false }

/-- `_pauseScan` (lines 840-845). -/
def pauseScan (s : PanelState) : PanelState :=
  if !s.isScanning || s.isPaused then s else { s with isPaused := true }

/-- The `.catch` handler of `_pauseScan` (lines 849-851). -/
def pauseScanFailed (s : PanelState) : PanelState :=
  { s with isPaused := false }

/-- `_resumeScan` (lines 857-862). -/
def resumeScan (s : PanelState) : PanelState :=
  if !s.isScanning || !s.isPaused then s else { s with isPaused := false }

/-- The `.catch` handler of `_resumeScan` (lines 866-868). -/
def resumeScanFailed (s : PanelState) : PanelState :=
  { s with isPaused := true }

/-- `_cancelScan` (lines 874-882) mutates no local state; it only calls
the backend service. -/
def cancelScan (s : PanelState) : PanelState := s

/-- Every operation that can touch the panel state after construction. -/
inductive PanelOp where
  | update (h : Hass) (now : Nat)
  | start (form : ScanForm) (now : Nat)
  | startFailed
  | pause
  | pauseFailed
  | resume
  | resumeFailed
  | cancel

/-- Apply one panel operation to a panel state. -/
def applyOp (s : PanelState) : PanelOp → PanelState
  | PanelOp.update h now => updateScanState s h now
  | PanelOp.start form now => (startScan s form now).1
  | PanelOp.startFailed => startScanFailed s
  | PanelOp.pause => pauseScan s
  | PanelOp.pauseFailed => pauseScanFailed s
  | PanelOp.resume => resumeScan s
  | PanelOp.resumeFailed => resumeScanFailed s
  | PanelOp.cancel => cancelScan s

/-- Modelled from the spec: `ScanStatus` (section 3); the scan engine
holding it is not part of the repository. -/
inductive ScanStatus where
  | Idle
  | Scanning
  | Paused
  | Cancelling
  | Cancelled
  | Completed
  | Failed
deriving DecidableEq

/-- Modelled from the spec: `FileDescriptor` (section 3) with its digest
already computed by a hash worker; the enumerator and hash workers are not
part of the repository.  A digest is a byte string, compared bytewise. -/
structure FileDesc where
  path : String
  sizeBytes : Nat
  createdAtEpoch : Nat
  digest : List Nat
deriving DecidableEq

/-- Modelled from the spec: `ScanConfiguration` (section 3); the engine
that validates it is not part of the repository. -/
structure EngineConfig where
  rootDirectories : List String
  videoExtensions : List String
  maxCpuPercent : Int
  batchSize : Int
deriving DecidableEq

/-- Modelled from the spec: configuration validity (section 3:
`maxCpuPercent ∈ [10,100]`, `batchSize ∈ [10,1000]`, and section 7: empty
extension list is a configuration error). -/
def validConfig (c : EngineConfig) : Bool :=
  10 ≤ c.maxCpuPercent && c.maxCpuPercent ≤ 100 &&
  (10 ≤ c.batchSize && c.batchSize ≤ 1000) &&
  !c.videoExtensions.isEmpty

/-- Modelled from the spec: `ScanSession` (section 3) together with the
files inserted into the `DuplicateIndex` so far; the engine is not part of
the repository.  `indexed` records the `(digest, descriptor)` insertions
in completion order. -/
structure EngineSession where
  status : ScanStatus
  config : EngineConfig
  processedCount : Nat
  totalEstimate : Nat
  currentFile : String
  errorMessage : Option String
  indexed : List FileDesc
deriving DecidableEq

/-- Modelled from the spec: the requests and internal completions that
drive the `ScanSession` state machine (sections 4.2 and 6). -/
inductive EngineEvent where
  | start (c : EngineConfig) (total : Nat)
  | processFile (f : FileDesc)
  | pause
  | resume
  | cancel
  | drained
  | complete
  | fail (msg : String)

/-- Modelled from the spec: which states accept a start request
(section 4.2: `Idle → Scanning` and `Completed|Cancelled|Failed →
Scanning`; rejected while `Scanning`/`Paused`). -/
def statusAllowsStart : ScanStatus → Bool
  | ScanStatus.Idle => true
  | ScanStatus.Completed => true
  | ScanStatus.Cancelled => true
  | ScanStatus.Failed => true
  | _ => false

/-- Modelled from the spec: the `ScanSession` state machine (section 4.2).
A start resets `processedCount` to 0 and clears the index; files are
dispatched (and counted) only while `Scanning`; pause, resume, cancel,
drain, completion and failure follow the listed transitions; every other
combination leaves the session unchanged (the request is rejected). -/
def engineStep (s : EngineSession) : EngineEvent → EngineSession
  | EngineEvent.start c total =>
    if statusAllowsStart s.status && validConfig c then
      { status := ScanStatus.Scanning, config := c, processedCount := 0,
        totalEstimate := total, currentFile := "", errorMessage := none,
        indexed := [] }
    else s
  | EngineEvent.processFile f =>
    if s.status = ScanStatus.Scanning then
      { s with processedCount := s.processedCount + 1,
               currentFile := f.path, indexed := s.indexed ++ [f] }
    else s
  | EngineEvent.pause =>
    if s.status = ScanStatus.Scanning then { s with status := ScanStatus.Paused } else s
  | EngineEvent.resume =>
    if s.status = ScanStatus.Paused then { s with status := ScanStatus.Scanning } else s
  | EngineEvent.cancel =>
    if s.status = ScanStatus.Scanning ∨ s.status = ScanStatus.Paused then
      { s with status := ScanStatus.Cancelling }
    else s
  | EngineEvent.drained =>
    if s.status = ScanStatus.Cancelling then { s with status := ScanStatus.Cancelled } else s
  | EngineEvent.complete =>
    if s.status = ScanStatus.Scanning then { s with status := ScanStatus.Completed } else s
  | EngineEvent.fail msg =>
    if s.status = ScanStatus.Scanning ∨ s.status = ScanStatus.Paused then
      { s with status := ScanStatus.Failed, errorMessage := some msg }
    else s

/-- Modelled from the spec: `progressPercent` is
`processedCount / totalEstimate * 100`, clamped to `[0,100]`
(section 4.2). -/
def progressPercent (s : EngineSession) : ℚ :=
  min 100 (max 0 ((s.processedCount : ℚ) / (s.totalEstimate : ℚ) * 100))

/-- The files of `files` whose digest is byte-equal to `d`. -/
def digestGroup (files : List FileDesc) (d : List Nat) : List FileDesc :=
  files.filter (fun f => decide (f.digest = d))

/-- Modelled from the spec: `DuplicateIndex.Snapshot()` (section 4.5)
over the files inserted so far, keyed by digest: only digests with at
least two descriptors are returned, each group in insertion order.  The
producing engine is not part of the repository; the panel renders its
output (`_renderResults`). -/
def duplicatesSnapshot (files : List FileDesc) : List (List Nat × List FileDesc) :=
  ((files.map (fun f => f.digest)).dedup).filterMap (fun d =>
    if 2 ≤ (digestGroup files d).length then some (d, digestGroup files d) else none)

/-- Concrete files used to evaluate the theorems: `a.mp4` and `c.mp4`
share a digest, `b.mp4` differs (the scenario of spec section 8). -/
def fa : FileDesc :=
  { path := "a.mp4", sizeBytes := 5, createdAtEpoch := 1, digest := [1, 2] }

def fb : FileDesc :=
  { path := "b.mp4", sizeBytes := 7, createdAtEpoch := 2, digest := [3, 4] }

def fc : FileDesc :=
  { path := "c.mp4", sizeBytes := 5, createdAtEpoch := 3, digest := [1, 2] }

def demoFiles : List FileDesc := [fa, fb, fc]

/-- A valid configuration used to evaluate the engine theorems. -/
def demoConfig : EngineConfig :=
  { rootDirectories := ["/home"], videoExtensions := ["mp4"],
    maxCpuPercent := 70, batchSize := 100 }

/-- A session in the middle of a scan, used to evaluate the theorems. -/
def demoScanning : EngineSession :=
  { status := ScanStatus.Scanning, config := demoConfig, processedCount := 3,
    totalEstimate := 10, currentFile := "b.mp4", errorMessage := none,
    indexed := [fa, fb] }

/-- A completed session, used to evaluate the theorems. -/
def demoCompleted : EngineSession :=
  { demoScanning with status := ScanStatus.Completed }

/-- An attributes object with every field absent. -/
def emptyAttrs : Attributes := {}

/-- A `hass` snapshot whose scan-state entity reports status paused. -/
def hassPaused : Hass :=
  { scanStateEntity := some { state := "paused", attrs := emptyAttrs } }

/-- The panel state after processing a paused status report. -/
def pausedPanel : PanelState := updateScanState initialPanel hassPaused 0

/-- A panel state that currently has a scan running. -/
def scanningPanel : PanelState :=
  { initialPanel with isScanning := true, scanStarted := true }

/-- A form whose extensions field is the empty string (parsed to an empty
list) and whose numeric fields are out of the documented ranges. -/
def invalidForm : ScanForm :=
  { extensions := some "", maxCpu := some 5, batchSize := some 5 }

/-- The default value of the extensions input rendered by
`_renderScanForm` (line 613). -/
def formDefaultExtensionsValue : String := "mp4, mkv, avi, mov"

/-- The form as rendered with its default values (lines 613, 623, 627). -/
def defaultForm : ScanForm :=
  { extensions := some formDefaultExtensionsValue, maxCpu := some 70,
    batchSize := some 100 }

/-- An attributes object carrying progress only under the
`scan_progress` naming variant. -/
def attrsVariantA : Attributes := { scan_progress := some 42 }

/-- A one-group duplicates mapping. -/
def dupMapOne : DupMap :=
  [("d1", [{ path := "x.mp4", size := 1, created := 1 }])]

/-- A different one-group duplicates mapping. -/
def dupMapTwo : DupMap :=
  [("d2", [{ path := "y.mp4", size := 2, created := 2 }])]

/-- A panel already displaying duplicates. -/
def panelWithDups : PanelState :=
  { initialPanel with duplicates := some dupMapOne }

/-- A status update supplying results only under the `duplicates`
attribute, with no `found_duplicates` attribute. -/
def hassDupsVariant : Hass :=
  { scanStateEntity :=
      some { state := "scanning", attrs := { duplicates := some dupMapTwo } } }

lemma mem_digestGroup {files : List FileDesc} {d : List Nat} {x : FileDesc} :
    x ∈ digestGroup files d ↔ x ∈ files ∧ x.digest = d := by
  simp [digestGroup]

lemma two_le_length_of_mem_ne {α : Type} {a b : α} {l : List α}
    (ha : a ∈ l) (hb : b ∈ l) (hab : a ≠ b) : 2 ≤ l.length := by
  cases l with
  | nil => cases ha
  | cons x xs =>
    simp only [List.length_cons]
    rcases List.mem_cons.mp ha with h1 | h1
    · rcases List.mem_cons.mp hb with h2 | h2
      · exact absurd (h1.trans h2.symm) hab
      · have := List.length_pos_of_mem h2; omega
    · have := List.length_pos_of_mem h1; omega

lemma mem_duplicatesSnapshot {files : List FileDesc} {d : List Nat}
    {grp : List FileDesc} :
    (d, grp) ∈ duplicatesSnapshot files ↔
      d ∈ files.map (fun f => f.digest) ∧ grp = digestGroup files d ∧
      2 ≤ grp.length := by
  unfold duplicatesSnapshot
  rw [List.mem_filterMap]
  constructor
  · rintro ⟨a, ha, hfa⟩
    by_cases h2 : 2 ≤ (digestGroup files a).length
    · rw [if_pos h2] at hfa
      obtain ⟨rfl, rfl⟩ := Prod.mk.injEq .. ▸ Option.some.inj hfa
      exact ⟨List.mem_dedup.mp ha, rfl, h2⟩
    · rw [if_neg h2] at hfa
      cases hfa
  · rintro ⟨hd, rfl, h2⟩
    exact ⟨d, List.mem_dedup.mpr hd, if_pos h2⟩

lemma updateProgressField_duplicates (s : PanelState) (a : Attributes) :
    (updateProgressField s a).duplicates = s.duplicates := by
  cases hp : a.progress <;> cases hsp : a.scan_progress <;>
    cases hpp : a.processed_percentage <;>
    simp [updateProgressField, hp, hsp, hpp]

lemma updateCurrentFileField_duplicates (s : PanelState) (a : Attributes) :
    (updateCurrentFileField s a).duplicates = s.duplicates := by
  unfold updateCurrentFileField
  split_ifs <;> rfl

lemma watchdogUpdate_duplicates (s : PanelState) (now : Nat) :
    (watchdogUpdate s now).duplicates = s.duplicates := by
  unfold watchdogUpdate
  dsimp only
  split_ifs <;> rfl

lemma dupsFallbackUpdate_of_some (s : PanelState) (h : Hass) (d : DupMap)
    (hd : s.duplicates = some d) : dupsFallbackUpdate s h = s := by
  unfold dupsFallbackUpdate
  rw [hd]
  rfl

/-- Claim C1: in the published duplicates snapshot of one scan, two
distinct input files appear in the same duplicate group iff their content
digests are byte-equal, and every file of a group is listed under exactly
the digest of its own content. -/
theorem same_group_iff_digest_eq (files : List FileDesc) (f g : FileDesc)
    (hf : f ∈ files) (hg : g ∈ files) (hfg : f ≠ g) :
    ((∃ d grp, (d, grp) ∈ duplicatesSnapshot files ∧ f ∈ grp ∧ g ∈ grp) ↔
      f.digest = g.digest) ∧
    (∀ d grp, (d, grp) ∈ duplicatesSnapshot files → ∀ x ∈ grp, x.digest = d) := by
  have hkey : ∀ d grp, (d, grp) ∈ duplicatesSnapshot files → ∀ x ∈ grp, x.digest = d := by
    intro d grp hmem x hx
    obtain ⟨-, rfl, -⟩ := mem_duplicatesSnapshot.mp hmem
    exact (mem_digestGroup.mp hx).2
  refine ⟨⟨?_, ?_⟩, hkey⟩
  · rintro ⟨d, grp, hmem, hfgrp, hggrp⟩
    rw [hkey d grp hmem f hfgrp, hkey d grp hmem g hggrp]
  · intro hdig
    have hfm : f ∈ digestGroup files f.digest := mem_digestGroup.mpr ⟨hf, rfl⟩
    have hgm : g ∈ digestGroup files f.digest := mem_digestGroup.mpr ⟨hg, hdig.symm⟩
    refine ⟨f.digest, digestGroup files f.digest, ?_, hfm, hgm⟩
    exact mem_duplicatesSnapshot.mpr
      ⟨List.mem_map.mpr ⟨f, hf, rfl⟩, rfl, two_le_length_of_mem_ne hfm hgm hfg⟩

/-- Witness for C1 at the concrete scenario of spec section 8: `a.mp4`
and `c.mp4` share a digest. -/
theorem same_group_iff_digest_eq_witness :
    (∃ d grp, (d, grp) ∈ duplicatesSnapshot demoFiles ∧ fa ∈ grp ∧ fc ∈ grp) ↔
      fa.digest = fc.digest :=
  (same_group_iff_digest_eq demoFiles fa fc (by decide) (by decide) (by decide)).1

/-- Claim C2: every digest present in the published duplicates snapshot
has at least two file entries, and a digest with exactly one file never
appears. -/
theorem snapshot_groups_have_two (files : List FileDesc) :
    (∀ d grp, (d, grp) ∈ duplicatesSnapshot files → 2 ≤ grp.length) ∧
    (∀ d, (digestGroup files d).length = 1 →
      ∀ grp, (d, grp) ∉ duplicatesSnapshot files) := by
  constructor
  · intro d grp h
    exact (mem_duplicatesSnapshot.mp h).2.2
  · intro d h1 grp hmem
    obtain ⟨-, rfl, h2⟩ := mem_duplicatesSnapshot.mp hmem
    omega

/-- Witness for C2: the digest of `b.mp4` occurs once and is absent from
the snapshot. -/
theorem snapshot_groups_have_two_witness :
    (digestGroup demoFiles [3, 4]).length = 1 ∧
    ([3, 4], [fb]) ∉ duplicatesSnapshot demoFiles :=
  ⟨by decide, (snapshot_groups_have_two demoFiles).2 [3, 4] (by decide) [fb]⟩

lemma progressPercent_mono_count {c c' t : Nat} (h : c ≤ c') :
    min 100 (max 0 ((c : ℚ) / (t : ℚ) * 100)) ≤
      min 100 (max 0 ((c' : ℚ) / (t : ℚ) * 100)) := by
  rcases Nat.eq_zero_or_pos t with ht | ht
  · subst ht
    norm_num
  · have htq : (0 : ℚ) < t := by exact_mod_cast ht
    have hdiv : (c : ℚ) / t ≤ (c' : ℚ) / t := by
      apply div_le_div_of_nonneg_right ?_ htq.le
      exact_mod_cast h
    have hmul : (c : ℚ) / t * 100 ≤ (c' : ℚ) / t * 100 := by
      apply mul_le_mul_of_nonneg_right hdiv
      norm_num
    exact min_le_min (le_refl 100) (max_le_max (le_refl 0) hmul)

/-- Claim C5: within one `Scanning` period `progressPercent` never
decreases across a step, and a step that keeps the session `Paused`
leaves `progressPercent` unchanged. -/
theorem progress_monotone (s : EngineSession) (e : EngineEvent) :
    (s.status = ScanStatus.Scanning → (engineStep s e).status = ScanStatus.Scanning →
      progressPercent s ≤ progressPercent (engineStep s e)) ∧
    (s.status = ScanStatus.Paused → (engineStep s e).status = ScanStatus.Paused →
      progressPercent (engineStep s e) = progressPercent s) := by
  constructor
  · intro hs hs2
    cases e with
    | start c total =>
      simp only [engineStep, hs, statusAllowsStart, Bool.false_and, Bool.false_eq_true,
        if_false]
      exact le_rfl
    | processFile f =>
      rw [engineStep, if_pos hs]
      exact progressPercent_mono_count (Nat.le_succ s.processedCount)
    | pause =>
      rw [engineStep, if_pos hs] at hs2
      cases hs2
    | resume =>
      rw [engineStep, if_neg (by rw [hs]; intro hc; cases hc)]
    | cancel =>
      rw [engineStep, if_pos (Or.inl hs)] at hs2
      cases hs2
    | drained =>
      rw [engineStep, if_neg (by rw [hs]; intro hc; cases hc)]
    | complete =>
      rw [engineStep, if_pos hs] at hs2
      cases hs2
    | fail msg =>
      rw [engineStep, if_pos (Or.inl hs)] at hs2
      cases hs2
  · intro hs hs2
    cases e with
    | start c total =>
      simp only [engineStep, hs, statusAllowsStart, Bool.false_and, Bool.false_eq_true,
        if_false]
    | processFile f =>
      rw [engineStep, if_neg (by rw [hs]; intro hc; cases hc)]
    | pause =>
      rw [engineStep, if_neg (by rw [hs]; intro hc; cases hc)]
    | resume =>
      rw [engineStep, if_pos hs] at hs2
      cases hs2
    | cancel =>
      rw [engineStep, if_pos (Or.inr hs)] at hs2
      cases hs2
    | drained =>
      rw [engineStep, if_neg (by rw [hs]; intro hc; cases hc)]
    | complete =>
      rw [engineStep, if_neg (by rw [hs]; intro hc; cases hc)]
    | fail msg =>
      rw [engineStep, if_pos (Or.inr hs)] at hs2
      cases hs2

/-- Witness for C5: processing one more file during a concrete scan does
not decrease the reported progress. -/
theorem progress_monotone_witness :
    progressPercent demoScanning ≤
      progressPercent (engineStep demoScanning (EngineEvent.processFile fc)) :=
  (progress_monotone demoScanning (EngineEvent.processFile fc)).1 rfl (by decide)

/-- Claim C7: an accepted start request - from `Idle` or from any
terminal state - resets `processedCount` to 0, clears the duplicate
index and enters `Scanning`, discarding the superseded session's
results. -/
theorem start_resets_session (s : EngineSession) (c : EngineConfig) (total : Nat)
    (hterm : s.status = ScanStatus.Idle ∨ s.status = ScanStatus.Completed ∨
      s.status = ScanStatus.Cancelled ∨ s.status = ScanStatus.Failed)
    (hc : validConfig c = true) :
    (engineStep s (EngineEvent.start c total)).processedCount = 0 ∧
    (engineStep s (EngineEvent.start c total)).indexed = [] ∧
    (engineStep s (EngineEvent.start c total)).status = ScanStatus.Scanning := by
  have hallow : statusAllowsStart s.status = true := by
    rcases hterm with h | h | h | h <;> rw [h] <;> rfl
  rw [engineStep, if_pos (by simp [hallow, hc])]
  exact ⟨rfl, rfl, rfl⟩

/-- Witness for C7: restarting after a completed session resets the
counters and the index. -/
theorem start_resets_session_witness :
    (engineStep demoCompleted (EngineEvent.start demoConfig 5)).processedCount = 0 ∧
    (engineStep demoCompleted (EngineEvent.start demoConfig 5)).indexed = [] ∧
    (engineStep demoCompleted (EngineEvent.start demoConfig 5)).status =
      ScanStatus.Scanning :=
  start_resets_session demoCompleted demoConfig 5 (by decide) (by decide)

/-- Claim C6: the progress percentage presented by `_renderScanningUI` is
clamped to the closed interval 0 to 100, whatever the internal progress
value is. -/
theorem renderProgress_clamped (p : ℚ) :
    0 ≤ renderProgressPercent p ∧ renderProgressPercent p ≤ 100 := by
  unfold renderProgressPercent
  exact ⟨le_min (by norm_num) (le_max_left 0 p), min_le_left 100 _⟩

/-- Counterexample to C3: after the backend reports `paused`, the panel
shows Paused but `_isScanning` is false, so `_startScan` is not rejected:
it flips the panel to scanning and issues a service call, changing the
active scan's state. -/
theorem startScan_paused_accepted :
    pausedPanel.isPaused = true ∧
    pausedPanel.isScanning = false ∧
    (startScan pausedPanel {} 5).1.isScanning = true ∧
    (startScan pausedPanel {} 5).1.progress = 0 ∧
    (startScan pausedPanel {} 5).2.isSome = true := by
  decide

/-- Claim C3 (amended): a StartScan request is rejected - leaving the
panel state unchanged and issuing no service call - exactly when the
panel currently has `_isScanning` set; a session the backend reports as
Paused clears `_isScanning`, so a StartScan is then accepted. -/
theorem startScan_rejected_when_scanning (s : PanelState) (form : ScanForm)
    (now : Nat) (h : s.isScanning = true) :
    startScan s form now = (s, none) := by
  rw [startScan, if_pos h]

/-- Witness for the amended C3 at a concrete scanning panel state. -/
theorem startScan_rejected_when_scanning_witness :
    startScan scanningPanel {} 9 = (scanningPanel, none) :=
  startScan_rejected_when_scanning scanningPanel {} 9 rfl

/-- Counterexample to C4: a StartScan with an empty extension list and
out-of-range `maxCpuPercent`/`batchSize` is not rejected: the panel
transitions to scanning before any validation and forwards the invalid
values verbatim to the backend service. -/
theorem startScan_invalid_not_rejected :
    (startScan initialPanel invalidForm 1).1.isScanning = true ∧
    (startScan initialPanel invalidForm 1).1.scanStarted = true ∧
    (startScan initialPanel invalidForm 1).2 =
      some { video_extensions := [], max_cpu_percent := 5, batch_size := 5 } ∧
    initialPanel.isScanning = false := by
  decide

/-- Claim C4 (amended): the panel performs no configuration validation:
whenever it is not scanning, any StartScan - invalid configurations
included - immediately transitions the panel to scanning with progress
reset and forwards the parsed configuration to the backend; only the
asynchronous failure of that service call later clears the scanning
flags. -/
theorem startScan_no_validation (s : PanelState) (form : ScanForm) (now : Nat)
    (h : s.isScanning = false) :
    (startScan s form now).1.isScanning = true ∧
    (startScan s form now).1.progress = 0 ∧
    (startScan s form now).1.scanStarted = true ∧
    (startScan s form now).2 = some (serviceCallOf form) ∧
    (startScanFailed (startScan s form now).1).isScanning = false := by
  rw [startScan, if_neg (by rw [h]; intro hc; cases hc)]
  exact ⟨rfl, rfl, rfl, rfl, rfl⟩

/-- Witness for the amended C4 at the concrete invalid form. -/
theorem startScan_no_validation_witness :
    (startScan initialPanel invalidForm 1).1.isScanning = true ∧
    (startScan initialPanel invalidForm 1).1.progress = 0 ∧
    (startScan initialPanel invalidForm 1).1.scanStarted = true ∧
    (startScan initialPanel invalidForm 1).2 = some (serviceCallOf invalidForm) ∧
    (startScanFailed (startScan initialPanel invalidForm 1).1).isScanning = false :=
  startScan_no_validation initialPanel invalidForm 1 rfl

/-- Counterexample to C8: both the rendered form default and the fallback
for a missing input yield the four extensions mp4, mkv, avi, mov - not
the claimed seven-element list. -/
theorem default_extensions_are_four :
    parseExtensions (some formDefaultExtensionsValue) = ["mp4", "mkv", "avi", "mov"] ∧
    parseExtensions none = ["mp4", "mkv", "avi", "mov"] ∧
    ["mp4", "mkv", "avi", "mov"] ≠ ["mp4", "avi", "mkv", "mov", "wmv", "flv", "webm"] := by
  decide

/-- Claim C8 (amended): when no configuration is supplied the scan runs
with `videoExtensions = [mp4, mkv, avi, mov]` (the rendered form default,
and likewise the fallback when the inputs are missing),
`maxCpuPercent = 70` and `batchSize = 100`. -/
theorem default_start_call :
    (startScan initialPanel defaultForm 0).2 =
      some { video_extensions := ["mp4", "mkv", "avi", "mov"],
             max_cpu_percent := 70, batch_size := 100 } ∧
    (startScan initialPanel {} 0).2 =
      some { video_extensions := ["mp4", "mkv", "avi", "mov"],
             max_cpu_percent := 70, batch_size := 100 } := by
  decide

/-- Counterexample to C9: the progress the consumer reads is not a
function of the canonical `progress` field alone - two status payloads
with identical `progress` fields yield different readings because
`_getProgress` also guesses the `scan_progress` variant. -/
theorem getProgress_guesses_variants :
    attrsVariantA.progress = emptyAttrs.progress ∧
    getProgress attrsVariantA ≠ getProgress emptyAttrs := by
  decide

/-- Claim C9 (amended): the status consumer has no single canonical
schema; it resolves every field by trying several naming variants in
priority order, skipping falsy values - `progress`, then
`scan_progress`, then `processed_percentage`; `current_file`, then
`file`, then `processing_file`; `found_duplicates`, then `duplicates` -
and it likewise consults three candidate entity ids for the scan
state. -/
theorem status_variant_lookup (a : Attributes) :
    (∀ q : ℚ, a.progress = some q → q ≠ 0 → getProgress a = q) ∧
    (∀ q : ℚ, a.progress = none → a.scan_progress = some q → q ≠ 0 →
      getProgress a = q) ∧
    (∀ q : ℚ, a.progress = none → a.scan_progress = none →
      a.processed_percentage = some q → q ≠ 0 → getProgress a = q) ∧
    (∀ str : String, a.current_file = some str → str ≠ "" →
      getCurrentFile a = str) ∧
    (∀ str : String, a.current_file = none → a.file = some str → str ≠ "" →
      getCurrentFile a = str) ∧
    (∀ m : DupMap, a.found_duplicates = some m → getDuplicates a = m) ∧
    (∀ m : DupMap, a.found_duplicates = none → a.duplicates = some m →
      getDuplicates a = m) := by
  refine ⟨?_, ?_, ?_, ?_, ?_, ?_, ?_⟩
  · intro q h1 h2
    simp [getProgress, jsOrQ, h1, h2]
  · intro q h1 h2 h3
    simp [getProgress, jsOrQ, h1, h2, h3]
  · intro q h1 h2 h3 h4
    simp [getProgress, jsOrQ, h1, h2, h3, h4]
  · intro str h1 h2
    simp [getCurrentFile, jsOrS, h1, h2]
  · intro str h1 h2 h3
    simp [getCurrentFile, jsOrS, h1, h2, h3]
  · intro m h1
    simp [getDuplicates, h1]
  · intro m h1 h2
    simp [getDuplicates, h1, h2]

/-- Witness for the amended C9: the `scan_progress` variant is consulted
once `progress` is absent. -/
theorem status_variant_lookup_witness : getProgress attrsVariantA = 42 :=
  (status_variant_lookup attrsVariantA).2.1 42 rfl rfl (by norm_num)

/-- Counterexample to C10: a status update that supplies no
`found_duplicates` attribute still replaces the panel's non-null
duplicates, via the `duplicates` attribute fallback. -/
theorem duplicates_replaced_without_found :
    (updateScanState panelWithDups hassDupsVariant 0).duplicates = some dupMapTwo ∧
    some dupMapTwo ≠ panelWithDups.duplicates ∧
    (scanEntityOf hassDupsVariant).isSome = true ∧
    ((scanEntityOf hassDupsVariant).bind
      (fun e => Attributes.found_duplicates e.attrs)) = none := by
  decide

lemma startScan_duplicates (s : PanelState) (form : ScanForm) (now : Nat) :
    (startScan s form now).1.duplicates = s.duplicates := by
  unfold startScan
  split_ifs <;> rfl

lemma updateDuplicatesField_found (s : PanelState) (a : Attributes) (m : DupMap)
    (hfd : a.found_duplicates = some m) :
    updateDuplicatesField s a = { s with duplicates := some m } := by
  unfold updateDuplicatesField
  rw [hfd]

lemma updateDuplicatesField_second (s : PanelState) (a : Attributes) (m : DupMap)
    (hfd : a.found_duplicates = none) (hdp : a.duplicates = some m) :
    updateDuplicatesField s a = { s with duplicates := some m } := by
  unfold updateDuplicatesField
  rw [hfd, hdp]

lemma updateDuplicatesField_keep (s : PanelState) (a : Attributes)
    (hfd : a.found_duplicates = none) (hdp : a.duplicates = none) :
    updateDuplicatesField s a = s := by
  unfold updateDuplicatesField
  rw [hfd, hdp]

lemma updateScanState_duplicates_of_some (s : PanelState) (h : Hass)
    (now : Nat) (d : DupMap) (hd : s.duplicates = some d) :
    ∃ d', (updateScanState s h now).duplicates = some d' ∧
      (d' ≠ d → ∃ ent, scanEntityOf h = some ent ∧
        (ent.attrs.found_duplicates.isSome = true ∨
          ent.attrs.duplicates.isSome = true)) := by
  unfold updateScanState
  cases hse : scanEntityOf h with
  | none =>
    refine ⟨d, ?_, fun hne => absurd rfl hne⟩
    have hw : (watchdogUpdate s now).duplicates = some d := by
      rw [watchdogUpdate_duplicates, hd]
    rw [dupsFallbackUpdate_of_some _ h d hw, hw]
  | some ent =>
    cases hfd : ent.attrs.found_duplicates with
    | some m =>
      refine ⟨m, ?_, fun _ => ⟨ent, rfl, Or.inl (by rw [hfd]; rfl)⟩⟩
      dsimp only
      rw [updateDuplicatesField_found _ _ m hfd]
      rw [dupsFallbackUpdate_of_some _ h m rfl]
    | none =>
      cases hdp : ent.attrs.duplicates with
      | some m =>
        refine ⟨m, ?_, fun _ => ⟨ent, rfl, Or.inr (by rw [hdp]; rfl)⟩⟩
        dsimp only
        rw [updateDuplicatesField_second _ _ m hfd hdp]
        rw [dupsFallbackUpdate_of_some _ h m rfl]
      | none =>
        refine ⟨d, ?_, fun hne => absurd rfl hne⟩
        dsimp only
        rw [updateDuplicatesField_keep _ _ hfd hdp]
        have hkeep : (updateCurrentFileField
            (updateProgressField
              { s with
                isScanning := (ent.state == "scanning") || (ent.state == "on"),
                isPaused := ent.state == "paused" }
              ent.attrs)
            ent.attrs).duplicates = some d := by
          rw [updateCurrentFileField_duplicates, updateProgressField_duplicates]
          exact hd
        rw [dupsFallbackUpdate_of_some _ h d hkeep, hkeep]

/-- Claim C10 (amended): once the panel's duplicates are non-null, no
operation ever resets them to null; they change only when a status
update's scan-state entity actually supplies a `found_duplicates` or a
`duplicates` attribute (in that priority), so displayed results only ever
disappear by replacement. -/
theorem duplicates_persist (s : PanelState) (op : PanelOp) (d : DupMap)
    (hd : s.duplicates = some d) :
    ∃ d', (applyOp s op).duplicates = some d' ∧
      (d' ≠ d → ∃ h now ent, op = PanelOp.update h now ∧
        scanEntityOf h = some ent ∧
        (ent.attrs.found_duplicates.isSome = true ∨
          ent.attrs.duplicates.isSome = true)) := by
  cases op with
  | update h now =>
    obtain ⟨d', hval, hrep⟩ := updateScanState_duplicates_of_some s h now d hd
    exact ⟨d', hval, fun hne =>
      (hrep hne).elim (fun ent hent => ⟨h, now, ent, rfl, hent.1, hent.2⟩)⟩
  | start form now =>
    refine ⟨d, ?_, fun hne => absurd rfl hne⟩
    rw [applyOp, startScan_duplicates]
    exact hd
  | startFailed => exact ⟨d, hd, fun hne => absurd rfl hne⟩
  | pause =>
    refine ⟨d, ?_, fun hne => absurd rfl hne⟩
    rw [applyOp, pauseScan]
    split_ifs <;> exact hd
  | pauseFailed => exact ⟨d, hd, fun hne => absurd rfl hne⟩
  | resume =>
    refine ⟨d, ?_, fun hne => absurd rfl hne⟩
    rw [applyOp, resumeScan]
    split_ifs <;> exact hd
  | resumeFailed => exact ⟨d, hd, fun hne => absurd rfl hne⟩
  | cancel => exact ⟨d, hd, fun hne => absurd rfl hne⟩

/-- Witness for the amended C10: pausing keeps the displayed duplicates. -/
theorem duplicates_persist_witness :
    ∃ d', (applyOp panelWithDups PanelOp.pause).duplicates = some d' ∧
      (d' ≠ dupMapOne → ∃ h now ent, PanelOp.pause = PanelOp.update h now ∧
        scanEntityOf h = some ent ∧
        (ent.attrs.found_duplicates.isSome = true ∨
          ent.attrs.duplicates.isSome = true)) :=
  duplicates_persist panelWithDups PanelOp.pause dupMapOne rfl
